import Mathlib

/-!
Verification of the call-processing pipeline core (gdrive-s3-webhook-pipeline).

Shallow embedding of the Python sources:
  * src/lambda/processing/update_status.py      (call state machine updates)
  * src/lambda/webhook/handler.py               (ingest record creation)
  * src/lambda/websocket/notify.py              (notification dispatcher filtering)
  * src/lambda/channel_renewal.py               (channel lifecycle manager)
  * src/lambda/processing/process_transcript.py (transcript aligner)
  * src/lambda/processing/generate_summary.py   (summary response parsing)

DynamoDB records are modelled as explicit record structures, the effect of an
`update_item`/`put_item` call as a pure state transformer, timestamps
(`datetime.utcnow()`) as explicit parameters, and external library calls
(`json.loads`, `datetime.fromisoformat`) as function parameters.
-/

namespace UpdateStatus

/-- A DynamoDB call record as touched by update_status.handler.  The fields the
handler's UpdateExpression can touch are explicit; `other` stands for every
remaining attribute of the item (none of which the expression mentions). -/
structure CallRecord where
  status : String
  updated_at : String
  error_message : Option String
  retry_count : Option Int
  other : List (String × String)
  deriving DecidableEq

/-- Python truthiness of the optional `error_message` taken from the event
(`if error_message:` is false for both a missing key and an empty string). -/
def truthyStr : Option String → Bool
  | none => false
  | some s => !(s == "")

/-- update_status.handler (src/lambda/processing/update_status.py, lines 27-80)
as a transformer of the stored record.  The UpdateExpression always sets
`status` and `updated_at`; it sets `error_message` when the event carries a
truthy one, and for status FAILED it sets
`retry_count = if_not_exists(retry_count, 0) + 1`. -/
def handler (rec : CallRecord) (status : String) (error_message : Option String)
    (now : String) : CallRecord :=
  { rec with
    status := status
    updated_at := now
    error_message := if truthyStr error_message then error_message
                     else rec.error_message
    retry_count := if status == "FAILED" then some (rec.retry_count.getD 0 + 1)
                   else rec.retry_count }

end UpdateStatus

namespace Webhook

/-- The slice of a Google Drive file-metadata dictionary that
create_dynamodb_record reads (`name` and `id`, both via .get). -/
structure FileMeta where
  name : Option String
  gid : Option String
  deriving DecidableEq

/-- The item written by webhook/handler.create_dynamodb_record. -/
structure CallItem where
  call_id : String
  timestamp : String
  status : String
  file_name : String
  gdrive_file_id : String
  s3_audio_url : String
  s3_bucket : String
  s3_key : String
  created_at : String
  updated_at : String
  retry_count : Int
  deriving DecidableEq

/-- create_dynamodb_record (src/lambda/webhook/handler.py, lines 190-215): the
initial item put for a freshly ingested recording.  `timestamp` stands for
`datetime.utcnow().isoformat() + Z`. -/
def create_dynamodb_record (s3Bucket : String) (timestamp : String)
    (call_id : String) (file_metadata : FileMeta) (s3_key : String) : CallItem :=
  { call_id := call_id
    timestamp := timestamp
    status := "UPLOADED"
    file_name := file_metadata.name.getD ("unknown")
    gdrive_file_id := file_metadata.gid.getD ("")
    s3_audio_url := "s3://" ++ s3Bucket ++ "/" ++ s3_key
    s3_bucket := s3Bucket
    s3_key := s3_key
    created_at := timestamp
    updated_at := timestamp
    retry_count := 0 }

end Webhook

namespace Notify

/-- One row of the websocket-connections table as read by filter_connections
(`subscribe_to` defaults to all, `user_id` may be absent, `user_groups`
defaults to the empty list). -/
structure Conn where
  connection_id : String
  subscribe_to : Option String
  user_id : Option String
  user_groups : List String
  deriving DecidableEq

/-- The admin/supervisors test of notify.filter_connections, line 104. -/
def isElevated (conn : Conn) : Bool :=
  conn.user_groups.contains ("admin") || conn.user_groups.contains ("supervisors")

/-- The per-connection decision of notify.filter_connections
(src/lambda/websocket/notify.py, lines 98-119).  Mirrors the if/elif chain:
elevated groups first, then the subscription preference.  `assigned` is the
event's possibly-missing assigned_user_id; Python compares None == None as
true, matched by Option equality. -/
def connTarget (conn : Conn) (call_id : String) (assigned : Option String) : Bool :=
  let subscribeTo := conn.subscribe_to.getD ("all")
  if isElevated conn then true
  else if subscribeTo == "all" then conn.user_id == assigned
  else if subscribeTo == "own" then conn.user_id == assigned
  else if subscribeTo == call_id then true
  else false

/-- filter_connections (src/lambda/websocket/notify.py, lines 93-120). -/
def filter_connections (connections : List Conn) (call_id : String)
    (assigned_user_id : Option String) : List Conn :=
  connections.filter (fun conn => connTarget conn call_id assigned_user_id)

end Notify

namespace ChannelRenewal

/-- The slice of a channel record consulted by should_renew_channel. -/
structure ChannelInfo where
  channel_id : Option String
  expiration : Option String
  deriving DecidableEq

/-- should_renew_channel (src/lambda/channel_renewal.py, lines 184-216).
`fromiso` abstracts datetime.fromisoformat, returning the parsed timestamp in
seconds or none when the library raises ValueError; `now` is
datetime.utcnow() in the same scale.  A missing or empty expiration string
(Python `if not expiration_str`) renews immediately; a parse failure is
caught and also renews; otherwise renew when less than 2 h (7200 s) remain. -/
def should_renew_channel (fromiso : String → Option ℚ) (now : ℚ)
    (channel_info : ChannelInfo) : Bool :=
  match channel_info.expiration with
  | none => true
  | some s =>
    if s == "" then true
    else
      match fromiso s with
      | none => true
      | some expiration => decide (expiration - now < 7200)

end ChannelRenewal

namespace ProcessTranscript

/-- One entry of a main item's `alternatives` list (only `content` is read,
via .get with default empty string). -/
structure AltEntry where
  content : Option String
  deriving DecidableEq

/-- One entry of `results.items` as read by format_transcript: raw string
time stamps (absent for punctuation items), the `type` field, and the
alternatives list. -/
structure MainItem where
  start_time : Option String
  end_time : Option String
  itype : Option String
  alternatives : List AltEntry
  deriving DecidableEq

/-- One entry of a diarization segment's `items` list: only the raw string
time stamps are read. -/
structure SegItemRef where
  start_time : Option String
  end_time : Option String
  deriving DecidableEq

/-- One entry of `results.speaker_labels.segments`.  The segment-level
start/end times are run through float(); they are modelled as already-parsed
rationals (with .get default 0 expressed by the Option). -/
structure DiarSegment where
  speaker_label : Option String
  start_time : Option ℚ
  end_time : Option ℚ
  items : List SegItemRef
  deriving DecidableEq

/-- The slice of the Transcribe output read by format_transcript:
`transcripts` holds each entry's .get of the transcript text, `segments` is
`results.speaker_labels.segments` (missing keys give the empty list), and
`items` is `results.items`. -/
structure TranscribeResults where
  transcripts : List (Option String)
  segments : List DiarSegment
  items : List MainItem
  deriving DecidableEq

/-- An element of the `formatted_segments` output list. -/
structure FormattedSegment where
  speaker : String
  start_time : ℚ
  end_time : ℚ
  text : String
  deriving DecidableEq

/-- The `metadata` dictionary of format_transcript's result. -/
structure Metadata where
  total_duration_seconds : ℤ
  word_count : ℕ
  agent_talk_time_seconds : ℤ
  customer_talk_time_seconds : ℤ
  segment_count : ℕ
  deriving DecidableEq

/-- The dictionary returned by format_transcript. -/
structure FormatOutput where
  formatted_transcript : String
  segments : List FormattedSegment
  metadata : Metadata
  deriving DecidableEq

/-- Python int() applied to a rational: truncation toward zero
(Int.div is T-division and the denominator is positive). -/
def truncRat (q : ℚ) : ℤ := q.num.tdiv (q.den : ℤ)

/-- Python floor division: the floor of a rational, computed with F-division
on the reduced numerator and positive denominator. -/
def floorQ (q : ℚ) : ℤ := q.num.fdiv (q.den : ℤ)

/-- The fixed speaker_map dictionary (spk_0 to Agent, spk_1 to Customer). -/
def speaker_map (s : String) : Option String :=
  if s == "spk_0" then some ("Agent")
  else if s == "spk_1" then some ("Customer")
  else none

/-- The inner scan over `results.items`: first main item whose raw start/end
strings equal the segment item's (Python == on possibly-missing values; the
loop breaks at the first match). -/
def findMatch (items : List MainItem) (s e : Option String) : Option MainItem :=
  items.find? (fun m => m.start_time == s && m.end_time == e)

/-- `segment_text[-1] += content`: append to the last collected token, or do
nothing on an empty list (mirrors the guarded in-place concatenation). -/
def appendToLast (content : String) : List String → List String
  | [] => []
  | [t] => [t ++ content]
  | t :: ts => t :: appendToLast content ts

/-- Processing of one matched main item against the collected token list
(format_transcript lines 88-96): skip when `alternatives` is empty, merge a
punctuation item into the previous token (dropped when there is none), and
append every other item as a fresh token. -/
def stepToken (segment_text : List String) (m : MainItem) : List String :=
  match m.alternatives with
  | [] => segment_text
  | alt :: _ =>
    let content := alt.content.getD ("")
    if m.itype == some ("punctuation") then appendToLast content segment_text
    else segment_text ++ [content]

/-- The token list collected for one diarization segment (the loop over
`segment.items`, lines 81-97): unmatched references contribute nothing. -/
def segTokens (items : List MainItem) (refs : List SegItemRef) : List String :=
  refs.foldl
    (fun acc ref =>
      match findMatch items ref.start_time ref.end_time with
      | some m => stepToken acc m
      | none => acc)
    []

/-- `' '.join(segment_text)`: the collected tokens separated by single
spaces. -/
def joinTokens : List String → String
  | [] => ""
  | [t] => t
  | t :: ts => t ++ " " ++ joinTokens ts

/-- One iteration of the segment loop (lines 71-105): none when no text was
collected (the segment is dropped), otherwise the emitted formatted segment
with the mapped speaker name and the float()-parsed segment times. -/
def processSegment (items : List MainItem) (seg : DiarSegment) :
    Option FormattedSegment :=
  let toks := segTokens items seg.items
  if toks.isEmpty then none
  else
    let sp := seg.speaker_label.getD ("Unknown")
    some
      { speaker := (speaker_map sp).getD sp
        start_time := seg.start_time.getD 0
        end_time := seg.end_time.getD 0
        text := joinTokens toks }

/-- `str(n)` padded as the Python format spec 02d does. -/
def pad2 (n : ℤ) : String :=
  if 0 ≤ n ∧ n < 10 then "0" ++ toString n else toString n

/-- The f-string timestamp `[m:ss]` of a conversation line (line 133):
minutes by floor division, seconds by the float modulo (which carries the
divisor's sign, i.e. s - 60 * floor (s / 60)), both through int(). -/
def tsStamp (s : ℚ) : String :=
  "[" ++ toString (floorQ (s / 60)) ++ ":"
      ++ pad2 (truncRat (s - 60 * (floorQ (s / 60) : ℚ))) ++ "]"

/-- Token counter behind pyWordCount: walks the characters, counting each
maximal run of non-whitespace; `inTok` says whether the previous character
was inside such a run. -/
def countTokensAux : Bool → List Char → ℕ
  | _, [] => 0
  | inTok, c :: rest =>
    if c.isWhitespace then countTokensAux false rest
    else (if inTok then 0 else 1) + countTokensAux true rest

/-- `len(full_transcript.split())`: whitespace-run tokens, empties dropped. -/
def pyWordCount (s : String) : ℕ := countTokensAux false s.toList

/-- `transcripts[0].get(transcript, empty) if transcripts else empty`
(lines 50-51). -/
def full_transcript_of (out : TranscribeResults) : String :=
  match out.transcripts with
  | [] => ""
  | t :: _ => t.getD ("")

/-- The `formatted_segments` list (lines 69-113): with speaker segments
present, each is aligned against the global item list and dropped when no
text matched; otherwise a single Unknown segment carries the full
transcript. -/
def formattedSegmentsOf (out : TranscribeResults) : List FormattedSegment :=
  match out.segments with
  | [] => [{ speaker := "Unknown", start_time := 0, end_time := 0,
             text := full_transcript_of out }]
  | _ :: _ => out.segments.filterMap (processSegment out.items)

/-- format_transcript (src/lambda/processing/process_transcript.py, lines
40-148): the formatted segments, and the metadata and readable conversation
derived from the emitted segments only. -/
def format_transcript (out : TranscribeResults) : FormatOutput :=
  let full_transcript := full_transcript_of out
  let formatted_segments := formattedSegmentsOf out
  let total_duration :=
    formatted_segments.foldl (fun acc seg => max acc seg.end_time) 0
  let agent_talk_time :=
    formatted_segments.foldl
      (fun acc seg =>
        if seg.speaker == "Agent" then acc + (seg.end_time - seg.start_time)
        else acc) 0
  let customer_talk_time :=
    formatted_segments.foldl
      (fun acc seg =>
        if seg.speaker == "Agent" then acc
        else if seg.speaker == "Customer" then acc + (seg.end_time - seg.start_time)
        else acc) 0
  let conversation_lines :=
    formatted_segments.map
      (fun seg => tsStamp seg.start_time ++ " " ++ seg.speaker ++ ": " ++ seg.text)
  { formatted_transcript := String.intercalate ("\n\n") conversation_lines
    segments := formatted_segments
    metadata :=
      { total_duration_seconds := truncRat total_duration
        word_count := pyWordCount full_transcript
        agent_talk_time_seconds := truncRat agent_talk_time
        customer_talk_time_seconds := truncRat customer_talk_time
        segment_count := formatted_segments.length } }

end ProcessTranscript

namespace GenerateSummary

/-- A parsed JSON value as produced by json.loads. -/
inductive JVal where
  | jnull
  | jbool (b : Bool)
  | jnum (q : ℚ)
  | jstr (s : String)
  | jarr (xs : List JVal)
  | jobj (fields : List (String × JVal))

/-- Substring test on code-point lists (Python `key in s` for strings). -/
def subListOf : List Char → List Char → Bool
  | n, [] => n.isEmpty
  | n, c :: rest => n.isPrefixOf (c :: rest) || subListOf n rest

/-- Python str.strip(): remove leading and trailing whitespace. -/
def pyStrip (s : String) : String :=
  String.mk (((s.toList.dropWhile Char.isWhitespace).reverse.dropWhile
    Char.isWhitespace).reverse)

/-- Python str.startswith on code points. -/
def pyStartsWith (s p : String) : Bool := p.toList.isPrefixOf s.toList

/-- Python str.endswith on code points. -/
def pyEndsWith (s p : String) : Bool := p.toList.isSuffixOf s.toList

/-- Python s[n:] on code points. -/
def pyDropChars (n : ℕ) (s : String) : String := String.mk (s.toList.drop n)

/-- Python s[:-n] on code points (empty when the string is shorter than n). -/
def pyDropRight (n : ℕ) (s : String) : String :=
  String.mk (s.toList.take (s.toList.length - n))

/-- The fence-cleaning prelude of parse_summary_response
(src/lambda/processing/generate_summary.py, lines 120-127): strip, peel a
leading code fence in two independent steps, peel a trailing fence, strip. -/
def strip_fences (response_text : String) : String :=
  let text := pyStrip response_text
  let text := if pyStartsWith text ("```json") then pyDropChars 7 text else text
  let text := if pyStartsWith text ("```") then pyDropChars 3 text else text
  let text := if pyEndsWith text ("```") then pyDropRight 3 text else text
  pyStrip text

/-- Lookup on a JSON object's field list (first match, as Python dicts hold
each key once). -/
def lookupField (fields : List (String × JVal)) (key : String) : Option JVal :=
  (fields.find? (fun f => f.1 == key)).map (fun f => f.2)

/-- Python dict item assignment: replace the key in place (a dict from
json.loads holds each key once) or append it. -/
def assignField : List (String × JVal) → String → JVal → List (String × JVal)
  | [], key, v => [(key, v)]
  | f :: fs, key, v =>
    if f.1 == key then (key, v) :: fs else f :: assignField fs key v

/-- Python `key in value` for a json.loads result: key membership on a dict,
element equality on a list (a string only ever equals a string), substring
test on a string, and a TypeError on the remaining non-iterable values. -/
def pyIn (key : String) (v : JVal) : Except String Bool :=
  match v with
  | .jobj fs => .ok (fs.any (fun f => f.1 == key))
  | .jarr xs =>
    .ok (xs.any (fun x => match x with | .jstr s => s == key | _ => false))
  | .jstr s => .ok (subListOf key.toList s.toList)
  | _ => .error ("TypeError: argument is not iterable")

/-- Python `value[key] = x`: only a dict supports string item assignment. -/
def pySetItem (v : JVal) (key : String) (x : JVal) : Except String JVal :=
  match v with
  | .jobj fs => .ok (.jobj (assignField fs key x))
  | _ => .error ("TypeError: item assignment unsupported")

/-- Python `value.get(key)`: only a dict has .get (an absent key gives None);
anything else raises AttributeError. -/
def pyGetMethod (v : JVal) (key : String) : Except String JVal :=
  match v with
  | .jobj fs => .ok ((lookupField fs key).getD .jnull)
  | _ => .error ("AttributeError: no attribute get")

/-- Python truthiness of a json.loads value. -/
def jtruthy : JVal → Bool
  | .jnull => false
  | .jbool b => b
  | .jnum q => decide (q ≠ 0)
  | .jstr s => !(s == "")
  | .jarr xs => !xs.isEmpty
  | .jobj fs => !fs.isEmpty

/-- isinstance(value, list). -/
def isList : JVal → Bool
  | .jarr _ => true
  | _ => false

/-- The required_fields list of parse_summary_response, line 133. -/
def required_fields : List String :=
  ["issue_sentence", "key_details", "action_items", "next_steps", "sentiment"]

/-- The per-missing-field default of line 137: an empty list for a field name
ending in s (other than sentiment), else the empty string. -/
def defaultFor (field : String) : JVal :=
  if pyEndsWith field ("s") && !(field == "sentiment") then .jarr [] else .jstr ("")

/-- One iteration of the required-fields loop (lines 134-137): test `field in
summary` and, when absent, assign the default.  Both steps can raise on a
non-dict value. -/
def ensureField (v : JVal) (field : String) : Except String JVal := do
  let present ← pyIn field v
  if present then pure v else pySetItem v field (defaultFor field)

/-- The valid_sentiments list of line 140. -/
def valid_sentiments : List String := ["Positive", "Neutral", "Negative"]

/-- `summary.get(sentiment) not in valid_sentiments`, negated: only one of
the three literal strings passes. -/
def sentimentValid : JVal → Bool
  | .jstr s => valid_sentiments.contains s
  | _ => false

/-- One iteration of the array-coercion loop (lines 145-147): a non-list
value is boxed into a singleton list when truthy, else replaced by []. -/
def ensureListField (v : JVal) (field : String) : Except String JVal := do
  let cur ← pyGetMethod v field
  if isList cur then pure v
  else if jtruthy cur then pySetItem v field (.jarr [cur])
  else pySetItem v field (.jarr [])

/-- The fallback summary returned when json.loads raises (lines 156-166);
`today` is datetime.utcnow() formatted as a date, `err` is str(e). -/
def fallback_summary (today : String) (err : String) : JVal :=
  .jobj [("call_date", .jstr today),
         ("issue_sentence", .jstr ("Unable to parse call summary automatically")),
         ("key_details", .jarr [.jstr ("Transcript available for manual review")]),
         ("action_items", .jarr []),
         ("next_steps", .jarr [.jstr ("Manual review required")]),
         ("sentiment", .jstr ("Neutral")),
         ("agent_id", .jnull),
         ("customer_id", .jnull),
         ("parse_error", .jstr err)]

/-- parse_summary_response (src/lambda/processing/generate_summary.py, lines
116-166).  `jsonLoads` abstracts the json.loads library call (.error is a
raised JSONDecodeError, the only exception the function catches).  A raised
TypeError/AttributeError from the validation steps propagates as .error. -/
def parse_summary_response (jsonLoads : String → Except String JVal)
    (today : String) (response_text : String) : Except String JVal :=
  let text := strip_fences response_text
  match jsonLoads text with
  | .error e => .ok (fallback_summary today e)
  | .ok summary => do
    let summary ← required_fields.foldlM ensureField summary
    let sent ← pyGetMethod summary ("sentiment")
    let summary ← if sentimentValid sent then pure summary
                  else pySetItem summary ("sentiment") (.jstr ("Neutral"))
    let summary ←
      ["key_details", "action_items", "next_steps"].foldlM ensureListField summary
    pure summary

end GenerateSummary

namespace ChannelRenewal

/-- A full channel record as stored in the channels table. -/
structure ChannelRecord where
  channel_id : String
  resource_id : String
  folder_id : String
  expiration : String
  page_token : Option String
  status : String
  renewed_to : Option String
  deriving DecidableEq

/-- The watch response consumed by create_channel: the identifiers and
expiration issued by the external service plus the start page token. -/
structure WatchResponse where
  channel_id : String
  resource_id : String
  expiration : String
  page_token : Option String
  deriving DecidableEq

/-- utils.save_channel_info (src/lambda/utils.py, lines 252-282): the record
put for a new channel always carries status active (timestamps omitted, no
claim reads them). -/
def save_channel_info (channel_id resource_id folder_id expiration : String)
    (page_token : Option String) : ChannelRecord :=
  { channel_id := channel_id
    resource_id := resource_id
    folder_id := folder_id
    expiration := expiration
    page_token := page_token
    status := "active"
    renewed_to := none }

/-- The externally visible effects of renew_channel, in program order. -/
inductive RenewAction where
  | stopOld (channel_id resource_id : String)
  | watchNew (channel_id : String)
  | saveNew (rec : ChannelRecord)
  | markRenewed (old_id new_id : String)
  deriving DecidableEq

/-- renew_channel (src/lambda/channel_renewal.py, lines 219-279) as the trace
of its effects on the happy path, in the order the source performs them:
1. stop_channel on the old subscription (line 237),
2. create_channel, i.e. the external files().watch call (line 241) whose
   response is `resp`,
3. save_channel_info persisting the new record with status active (line 244),
4. update_item marking the old record renewed with the forward pointer
   (lines 253-262).
A crash or exception after step k leaves exactly the first k effects
applied. -/
def renew_channel_trace (old : ChannelRecord) (resp : WatchResponse) :
    List RenewAction :=
  [ .stopOld old.channel_id old.resource_id,
    .watchNew resp.channel_id,
    .saveNew (save_channel_info resp.channel_id resp.resource_id old.folder_id
      resp.expiration resp.page_token),
    .markRenewed old.channel_id resp.channel_id ]

/-- Effect of one action on the channels table: the two external calls do not
touch the table; saveNew is a keyed put_item (upsert); markRenewed is the
update_item setting status renewed and renewed_to on the old key. -/
def applyAction (db : List ChannelRecord) : RenewAction → List ChannelRecord
  | .stopOld _ _ => db
  | .watchNew _ => db
  | .saveNew rec => db.filter (fun r => !(r.channel_id == rec.channel_id)) ++ [rec]
  | .markRenewed old_id new_id =>
      db.map (fun r =>
        if r.channel_id == old_id then
          { r with status := "renewed", renewed_to := some new_id }
        else r)

/-- The table contents after the first k effects of a trace. -/
def dbAfter (db : List ChannelRecord) (tr : List RenewAction) (k : ℕ) :
    List ChannelRecord :=
  (tr.take k).foldl applyAction db

/-- Selector: the external stop call. -/
def isStop : RenewAction → Bool
  | .stopOld _ _ => true
  | _ => false

/-- Selector: durably persisting a record with status active. -/
def isSaveActive : RenewAction → Bool
  | .saveNew rec => rec.status == "active"
  | _ => false

/-- Selector: marking the old record renewed. -/
def isMark : RenewAction → Bool
  | .markRenewed _ _ => true
  | _ => false

/-- The ordering the specification demands of a renewal trace: every durable
save of an active record happens strictly before every stop call and every
mark-renewed update. -/
def createBeforeTeardown (tr : List RenewAction) : Prop :=
  ∀ i j : Fin tr.length, isSaveActive (tr.get i) →
    (isStop (tr.get j) ∨ isMark (tr.get j)) → (i : ℕ) < (j : ℕ)

/-- A concrete active channel record for counterexamples and witnesses. -/
def oldChannel0 : ChannelRecord :=
  { channel_id := "chan-old", resource_id := "res-old", folder_id := "folder-1",
    expiration := "2024-01-01T00:00:00", page_token := some ("11"),
    status := "active", renewed_to := none }

/-- A concrete watch response for counterexamples and witnesses. -/
def watchResp0 : WatchResponse :=
  { channel_id := "chan-new", resource_id := "res-new",
    expiration := "2024-01-02T00:00:00", page_token := some ("12") }

end ChannelRenewal

namespace ProcessTranscript

/-- The C6 scenario input: transcript Hello there., one spk_0 segment over
[0,1] whose item references cover the two words, one comma reference that
matches nothing, and the final period. -/
def c6input : TranscribeResults :=
  { transcripts := [some ("Hello there.")]
    segments := [{ speaker_label := some ("spk_0"), start_time := some 0,
                   end_time := some 1,
                   items := [⟨some ("0.0"), some ("0.5")⟩,
                             ⟨some ("0.33"), some ("0.44")⟩,
                             ⟨some ("0.5"), some ("0.9")⟩,
                             ⟨some ("0.9"), some ("1.0")⟩] }]
    items := [⟨some ("0.0"), some ("0.5"), some ("pronunciation"), [⟨some ("Hello")⟩]⟩,
              ⟨none, none, some ("punctuation"), [⟨some (",")⟩]⟩,
              ⟨some ("0.5"), some ("0.9"), some ("pronunciation"), [⟨some ("there")⟩]⟩,
              ⟨some ("0.9"), some ("1.0"), some ("punctuation"), [⟨some (".")⟩]⟩] }

/-- A diarization segment over [0,5] none of whose item references match any
global item of c5input. -/
def c5unmatchedSeg : DiarSegment :=
  { speaker_label := some ("spk_0"), start_time := some 0, end_time := some 5,
    items := [⟨some ("9.9"), some ("9.95")⟩] }

/-- The C5 input: a single diarization segment ending at 5 s whose only item
reference matches nothing in the global item list. -/
def c5input : TranscribeResults :=
  { transcripts := [some ("Hello there.")]
    segments := [c5unmatchedSeg]
    items := [⟨some ("0.0"), some ("0.5"), some ("pronunciation"), [⟨some ("Hello")⟩]⟩] }

/-- A segment of c5input's item list that does match (used to accompany the
unmatched one in the C5 witness). -/
def c5matchedSeg : DiarSegment :=
  { speaker_label := some ("spk_0"), start_time := some 0, end_time := some 1,
    items := [⟨some ("0.0"), some ("0.5")⟩] }

/-- The C9 input: the first matched item of the only segment is a
punctuation item (a period) with no preceding collected token. -/
def c9input : TranscribeResults :=
  { transcripts := [some ("Hi")]
    segments := [{ speaker_label := some ("spk_1"), start_time := some 0,
                   end_time := some 1,
                   items := [⟨some ("0.0"), some ("0.1")⟩,
                             ⟨some ("0.1"), some ("0.5")⟩] }]
    items := [⟨some ("0.0"), some ("0.1"), some ("punctuation"), [⟨some (".")⟩]⟩,
              ⟨some ("0.1"), some ("0.5"), some ("pronunciation"), [⟨some ("Hi")⟩]⟩] }

end ProcessTranscript

namespace GenerateSummary

/-- A json.loads stand-in agreeing with the library on the one input the C8
counterexample evaluates: the string of an empty array parses to an empty
array. -/
def jsonLoadsArr : String → Except String JVal :=
  fun s => if s == "[]" then .ok (.jarr []) else .error ("Expecting value")

/-- A json.loads stand-in for inputs that are not valid JSON: always raises
JSONDecodeError. -/
def jsonLoadsErr : String → Except String JVal :=
  fun _ => .error ("Expecting value")

/-- A json.loads stand-in agreeing with the library on the string of an
empty object. -/
def jsonLoadsObj0 : String → Except String JVal :=
  fun s => if s == "{}" then .ok (.jobj []) else .error ("Expecting value")

end GenerateSummary

/-- C3: the claim says a call record created at ingest has status PENDING,
one of the five enum statuses.  The code instead writes status UPLOADED,
which lies outside the enum; every created item has status UPLOADED. -/
theorem C3_ingest_record_status (s3Bucket timestamp call_id : String)
    (file_metadata : Webhook.FileMeta) (s3_key : String) :
    (Webhook.create_dynamodb_record s3Bucket timestamp call_id file_metadata
        s3_key).status = "UPLOADED" ∧
    "UPLOADED" ∉ (["PENDING", "TRANSCRIBING", "SUMMARIZING", "COMPLETED",
        "FAILED"] : List String) :=
  ⟨rfl, by decide⟩

/-- C10: should_renew_channel returns true whenever the stored expiration is
absent or fails to parse as an ISO timestamp (the ValueError branch), for
every parse behaviour and every current time; being a total Bool function,
it never raises. -/
theorem C10_should_renew_unknown_expiry (fromiso : String → Option ℚ)
    (now : ℚ) (channel_info : ChannelRenewal.ChannelInfo) :
    (channel_info.expiration = none →
       ChannelRenewal.should_renew_channel fromiso now channel_info = true) ∧
    (∀ s, channel_info.expiration = some s → fromiso s = none →
       ChannelRenewal.should_renew_channel fromiso now channel_info = true) := by
  constructor
  · intro h
    simp [ChannelRenewal.should_renew_channel, h]
  · intro s hs hp
    simp only [ChannelRenewal.should_renew_channel, hs, hp]
    split <;> simp

/-- C10 witness: a channel with no expiration and one with an unparsable
expiration are both due for renewal. -/
theorem C10_should_renew_unknown_expiry_witness :
    ChannelRenewal.should_renew_channel (fun _ => none) 0
      ⟨some ("chan-1"), none⟩ = true ∧
    ChannelRenewal.should_renew_channel (fun _ => none) 0
      ⟨some ("chan-1"), some ("not-a-timestamp")⟩ = true :=
  ⟨(C10_should_renew_unknown_expiry (fun _ => none) 0 _).1 rfl,
   (C10_should_renew_unknown_expiry (fun _ => none) 0 _).2
     "not-a-timestamp" rfl rfl⟩

/-- C2 counterexample: the claim says re-applying the identical advance call
to a record already at the target status leaves the record entirely
unchanged.  Re-delivering advance(FAILED, timeout) to a record already at
FAILED with retry_count 1 increments retry_count to 2, so the record
changes. -/
theorem C2_counterexample :
    ¬ (UpdateStatus.handler ⟨"FAILED", "t1", some ("timeout"), some 1, []⟩
         "FAILED" (some ("timeout")) "t1"
       = ⟨"FAILED", "t1", some ("timeout"), some 1, []⟩) := by
  decide

/-- C2 amended: a re-delivered advance with a non-FAILED target status equal
to the stored status, carrying no truthy error_message, changes nothing but
updated_at (which is rewritten on every call); a re-delivered FAILED always
increments retry_count again — the update is not idempotent for FAILED. -/
theorem C2_advance_redelivery (rec : UpdateStatus.CallRecord) (s : String)
    (e : Option String) (now : String) :
    (s ≠ "FAILED" → UpdateStatus.truthyStr e = false → rec.status = s →
       UpdateStatus.handler rec s e now = { rec with updated_at := now }) ∧
    (s = "FAILED" →
       (UpdateStatus.handler rec s e now).retry_count
         = some (rec.retry_count.getD 0 + 1)) := by
  constructor
  · intro hs he hst
    cases rec
    simp_all [UpdateStatus.handler]
  · intro hs
    simp [UpdateStatus.handler, hs]

/-- C2 witness: a re-delivered TRANSCRIBING update only refreshes
updated_at, while a re-delivered FAILED update moves retry_count from 1 to
2. -/
theorem C2_advance_redelivery_witness :
    UpdateStatus.handler ⟨"TRANSCRIBING", "t0", none, none, []⟩
        "TRANSCRIBING" none "t9"
      = ⟨"TRANSCRIBING", "t9", none, none, []⟩ ∧
    (UpdateStatus.handler ⟨"FAILED", "t0", some ("x"), some 1, []⟩
        "FAILED" none "t9").retry_count = some 2 := by
  constructor
  · exact (C2_advance_redelivery ⟨"TRANSCRIBING", "t0", none, none, []⟩
      "TRANSCRIBING" none "t9").1 (by decide) (by decide) rfl
  · have h := (C2_advance_redelivery ⟨"FAILED", "t0", some ("x"), some 1, []⟩
      "FAILED" none "t9").2 rfl
    simpa using h

/-- C4 counterexample: the claim says a non-FAILED target status leaves
error_message unchanged, but an update to SUMMARIZING that carries an
error_message writes it regardless of the status. -/
theorem C4_counterexample :
    ¬ ((UpdateStatus.handler ⟨"TRANSCRIBING", "t0", none, none, []⟩
          "SUMMARIZING" (some ("oops")) "t1").error_message
       = (⟨"TRANSCRIBING", "t0", none, none, []⟩ :
            UpdateStatus.CallRecord).error_message) := by
  decide

/-- C4 amended: a FAILED update increments retry_count by exactly one
(absent counts as zero) and sets error_message when a non-empty error is
supplied; any other target status leaves retry_count unchanged and leaves
error_message unchanged unless the event itself carries a non-empty
error_message (which the code writes regardless of status).  In particular
advance(FAILED, error timeout) on a TRANSCRIBING record with no prior
retry_count yields status FAILED, retry_count 1, error_message timeout. -/
theorem C4_failed_transition_effects (rec : UpdateStatus.CallRecord)
    (s : String) (e : Option String) (now : String) :
    (s = "FAILED" →
       (UpdateStatus.handler rec s e now).retry_count
           = some (rec.retry_count.getD 0 + 1) ∧
       (UpdateStatus.truthyStr e = true →
          (UpdateStatus.handler rec s e now).error_message = e)) ∧
    (s ≠ "FAILED" →
       (UpdateStatus.handler rec s e now).retry_count = rec.retry_count ∧
       (UpdateStatus.truthyStr e = false →
          (UpdateStatus.handler rec s e now).error_message
            = rec.error_message)) ∧
    UpdateStatus.handler ⟨"TRANSCRIBING", "t0", none, none, []⟩ "FAILED"
        (some ("timeout")) now
      = ⟨"FAILED", now, some ("timeout"), some 1, []⟩ := by
  refine ⟨?_, ?_, ?_⟩
  · intro hs
    constructor
    · simp [UpdateStatus.handler, hs]
    · intro he
      simp [UpdateStatus.handler, he]
  · intro hs
    constructor
    · simp [UpdateStatus.handler, hs]
    · intro he
      simp [UpdateStatus.handler, he]
  · simp [UpdateStatus.handler, UpdateStatus.truthyStr]

/-- C4 witness: the FAILED case (retry_count 1, error recorded) and the
plain TRANSCRIBING case with no error supplied (nothing but status and
updated_at touched). -/
theorem C4_failed_transition_effects_witness :
    UpdateStatus.handler ⟨"TRANSCRIBING", "t0", none, none, []⟩ "FAILED"
        (some ("timeout")) "t1"
      = ⟨"FAILED", "t1", some ("timeout"), some 1, []⟩ ∧
    (UpdateStatus.handler ⟨"PENDING", "t0", none, some 3, []⟩ "TRANSCRIBING"
        none "t1").retry_count = some 3 := by
  constructor
  · exact (C4_failed_transition_effects ⟨"TRANSCRIBING", "t0", none, none, []⟩
      "FAILED" (some ("timeout")) "t1").2.2
  · exact ((C4_failed_transition_effects ⟨"PENDING", "t0", none, some 3, []⟩
      "TRANSCRIBING" none "t1").2.1 (by decide)).1

/-- C7 counterexample: the claim says a standard-tier connection whose
subscription scope equals the literal call_id is always included.  For a
broadcast whose call_id is the literal string own, a standard connection
subscribed to own with a mismatched identity has scope equal to the call_id
yet is filtered out. -/
theorem C7_counterexample :
    Notify.isElevated ⟨"c1", some ("own"), some ("u1"), []⟩ = false ∧
    (⟨"c1", some ("own"), some ("u1"), []⟩ : Notify.Conn).subscribe_to
      = some ("own") ∧
    Notify.filter_connections [⟨"c1", some ("own"), some ("u1"), []⟩]
      "own" (some ("u2")) = [] := by
  decide

/-- C7 amended: an elevated-tier connection (admin or supervisors group) is
always included; a standard-tier connection subscribed to own with a
mismatched identity is never included; and a standard-tier connection whose
scope equals the literal call_id is included provided call_id is not one of
the reserved scope literals all or own (whose identity-matching branches
take precedence in the if/elif chain). -/
theorem C7_filter_connections_policy (connections : List Notify.Conn)
    (conn : Notify.Conn) (call_id : String) (assigned : Option String) :
    (conn ∈ connections → Notify.isElevated conn = true →
       conn ∈ Notify.filter_connections connections call_id assigned) ∧
    (Notify.isElevated conn = false → conn.subscribe_to = some ("own") →
       conn.user_id ≠ assigned →
       conn ∉ Notify.filter_connections connections call_id assigned) ∧
    (conn ∈ connections → Notify.isElevated conn = false →
       conn.subscribe_to = some call_id → call_id ≠ "all" → call_id ≠ "own" →
       conn ∈ Notify.filter_connections connections call_id assigned) := by
  refine ⟨?_, ?_, ?_⟩
  · intro hmem helev
    refine List.mem_filter.mpr ⟨hmem, ?_⟩
    simp [Notify.connTarget, helev]
  · intro helev hsub hne hmem
    have h := (List.mem_filter.mp hmem).2
    simp [Notify.connTarget, helev, hsub] at h
    exact hne h
  · intro hmem helev hsub hall hown
    refine List.mem_filter.mpr ⟨hmem, ?_⟩
    simp [Notify.connTarget, helev, hsub, hall, hown]

/-- C7 witness: an admin connection is included despite a mismatched
identity; a standard own-scoped connection with a mismatched identity is
excluded; a standard connection subscribed to the concrete call id is
included. -/
theorem C7_filter_connections_policy_witness :
    (⟨"a1", some ("own"), some ("u1"), ["admin"]⟩ : Notify.Conn)
      ∈ Notify.filter_connections [⟨"a1", some ("own"), some ("u1"), ["admin"]⟩]
          "call-7" (some ("u9")) ∧
    (⟨"c1", some ("own"), some ("u1"), []⟩ : Notify.Conn)
      ∉ Notify.filter_connections [⟨"c1", some ("own"), some ("u1"), []⟩]
          "call-7" (some ("u9")) ∧
    (⟨"c2", some ("call-7"), some ("u1"), []⟩ : Notify.Conn)
      ∈ Notify.filter_connections [⟨"c2", some ("call-7"), some ("u1"), []⟩]
          "call-7" (some ("u9")) := by
  refine ⟨?_, ?_, ?_⟩
  · exact (C7_filter_connections_policy _ _ "call-7" (some ("u9"))).1
      (by decide) (by decide)
  · exact (C7_filter_connections_policy _ _ "call-7" (some ("u9"))).2.1
      (by decide) rfl (by decide)
  · exact (C7_filter_connections_policy _ _ "call-7" (some ("u9"))).2.2
      (by decide) (by decide) rfl (by decide) (by decide)

namespace ProcessTranscript

/-- Appending one token: the space-join gains exactly one single-space
separator (none when the list was empty). -/
theorem joinTokens_append_one (toks : List String) (c : String) :
    joinTokens (toks ++ [c])
      = if toks.isEmpty then c else joinTokens toks ++ " " ++ c := by
  induction toks with
  | nil => simp [joinTokens]
  | cons t ts ih =>
    cases ts with
    | nil => simp [joinTokens]
    | cons t2 ts2 =>
      have ih2 : joinTokens (t2 :: ts2 ++ [c])
          = joinTokens (t2 :: ts2) ++ " " ++ c := by simpa using ih
      rw [if_neg (by simp)]
      calc joinTokens ((t :: t2 :: ts2) ++ [c])
          = t ++ " " ++ joinTokens (t2 :: ts2 ++ [c]) := rfl
        _ = t ++ " " ++ (joinTokens (t2 :: ts2) ++ " " ++ c) := by rw [ih2]
        _ = joinTokens (t :: t2 :: ts2) ++ " " ++ c := by
            show _ = (t ++ " " ++ joinTokens (t2 :: ts2)) ++ " " ++ c
            simp [String.append_assoc]

/-- Merging into the last token: the space-join gains the content with no
separator, provided a previous token exists. -/
theorem joinTokens_appendToLast (toks : List String) (c : String)
    (h : toks ≠ []) :
    joinTokens (appendToLast c toks) = joinTokens toks ++ c := by
  induction toks with
  | nil => exact absurd rfl h
  | cons t ts ih =>
    cases ts with
    | nil => simp [appendToLast, joinTokens]
    | cons t2 ts2 =>
      have hne : appendToLast c (t2 :: ts2) ≠ [] := by
        cases ts2 <;> simp [appendToLast]
      obtain ⟨u, us, hts⟩ := List.exists_cons_of_ne_nil hne
      calc joinTokens (appendToLast c (t :: t2 :: ts2))
          = joinTokens (t :: appendToLast c (t2 :: ts2)) := by
            simp [appendToLast]
        _ = t ++ " " ++ joinTokens (appendToLast c (t2 :: ts2)) := by
            rw [hts]; rfl
        _ = t ++ " " ++ (joinTokens (t2 :: ts2) ++ c) := by
            rw [ih (by simp)]
        _ = joinTokens (t :: t2 :: ts2) ++ c := by
            show _ = (t ++ " " ++ joinTokens (t2 :: ts2)) ++ c
            simp [String.append_assoc]

end ProcessTranscript

namespace ProcessTranscript

/-- The token fold leaves its accumulator untouched when no reference of the
segment matches any global item. -/
theorem foldl_tokens_unmatched (items : List MainItem) :
    ∀ (refs : List SegItemRef) (acc : List String),
      (∀ ref ∈ refs, findMatch items ref.start_time ref.end_time = none) →
      refs.foldl
        (fun acc ref =>
          match findMatch items ref.start_time ref.end_time with
          | some m => stepToken acc m
          | none => acc) acc = acc := by
  intro refs
  induction refs with
  | nil => intro acc _; rfl
  | cons r rs ih =>
    intro acc h
    rw [List.foldl_cons]
    have hr := h r (by simp)
    simp only [hr]
    exact ih acc (fun ref href => h ref (by simp [href]))

/-- A segment none of whose references match collects no tokens. -/
theorem segTokens_eq_nil_of_unmatched (items : List MainItem)
    (refs : List SegItemRef)
    (h : ∀ ref ∈ refs, findMatch items ref.start_time ref.end_time = none) :
    segTokens items refs = [] :=
  foldl_tokens_unmatched items refs [] h

/-- A segment none of whose references match is dropped from the output. -/
theorem processSegment_eq_none_of_unmatched (items : List MainItem)
    (seg : DiarSegment)
    (h : ∀ ref ∈ seg.items, findMatch items ref.start_time ref.end_time = none) :
    processSegment items seg = none := by
  have htoks := segTokens_eq_nil_of_unmatched items seg.items h
  simp [processSegment, htoks]

/-- With speaker segments present, the formatted segments are the filterMap
of the per-segment processing. -/
theorem formattedSegmentsOf_nonempty (out : TranscribeResults)
    (h : out.segments ≠ []) :
    formattedSegmentsOf out
      = out.segments.filterMap (processSegment out.items) := by
  cases hs : out.segments with
  | nil => exact absurd hs h
  | cons a l => simp [formattedSegmentsOf, hs]

end ProcessTranscript

/-- C6: within a diarization segment, a matched non-punctuation item becomes
a fresh token and the join separates tokens by exactly one space, while a
matched punctuation item is appended to the previous token with no
separating space; in particular the Hello there scenario emits exactly one
segment with speaker Agent and text Hello there followed by the period. -/
theorem C6_word_and_punctuation_spacing :
    (∀ (toks : List String) (m : ProcessTranscript.MainItem) (c : String)
        (rest : List ProcessTranscript.AltEntry),
       m.itype ≠ some ("punctuation") → m.alternatives = ⟨some c⟩ :: rest →
       ProcessTranscript.stepToken toks m = toks ++ [c] ∧
       (toks ≠ [] →
          ProcessTranscript.joinTokens (toks ++ [c])
            = ProcessTranscript.joinTokens toks ++ " " ++ c)) ∧
    (∀ (toks : List String) (m : ProcessTranscript.MainItem) (c : String)
        (rest : List ProcessTranscript.AltEntry),
       m.itype = some ("punctuation") → m.alternatives = ⟨some c⟩ :: rest →
       toks ≠ [] →
       ProcessTranscript.joinTokens (ProcessTranscript.stepToken toks m)
         = ProcessTranscript.joinTokens toks ++ c) ∧
    (ProcessTranscript.format_transcript ProcessTranscript.c6input).segments
      = [⟨"Agent", 0, 1, "Hello there."⟩] := by
  refine ⟨?_, ?_, ?_⟩
  · intro toks m c rest hnp halt
    constructor
    · simp [ProcessTranscript.stepToken, halt, hnp]
    · intro hne
      rw [ProcessTranscript.joinTokens_append_one]
      simp [hne]
  · intro toks m c rest hp halt hne
    simp only [ProcessTranscript.stepToken, halt, hp]
    simp only [beq_self_eq_true, if_true, Option.getD_some]
    exact ProcessTranscript.joinTokens_appendToLast toks c hne
  · rfl

/-- C6 witness: matched word there becomes a separate token after Hello, and
a matched period merges into the previous token with no space. -/
theorem C6_word_and_punctuation_spacing_witness :
    ProcessTranscript.stepToken ["Hello"]
        ⟨some ("0.5"), some ("0.9"), some ("pronunciation"), [⟨some ("there")⟩]⟩
      = ["Hello", "there"] ∧
    ProcessTranscript.joinTokens (ProcessTranscript.stepToken ["Hello", "there"]
        ⟨some ("0.9"), some ("1.0"), some ("punctuation"), [⟨some (".")⟩]⟩)
      = ProcessTranscript.joinTokens ["Hello", "there"] ++ "." := by
  constructor
  · exact (C6_word_and_punctuation_spacing.1 ["Hello"]
      ⟨some ("0.5"), some ("0.9"), some ("pronunciation"), [⟨some ("there")⟩]⟩
      "there" [] (by decide) rfl).1
  · exact C6_word_and_punctuation_spacing.2.1 ["Hello", "there"]
      ⟨some ("0.9"), some ("1.0"), some ("punctuation"), [⟨some (".")⟩]⟩
      "." [] rfl rfl (by decide)

/-- C9: a matched punctuation item arriving when no token has been collected
yet is silently dropped — processing the segment with it is the same as
processing the segment without it, and in the concrete input the leading
period appears nowhere in the emitted text. -/
theorem C9_leading_punctuation_discarded :
    (∀ (items : List ProcessTranscript.MainItem)
        (ref : ProcessTranscript.SegItemRef)
        (rest : List ProcessTranscript.SegItemRef)
        (m : ProcessTranscript.MainItem),
       ProcessTranscript.findMatch items ref.start_time ref.end_time = some m →
       m.itype = some ("punctuation") →
       ProcessTranscript.segTokens items (ref :: rest)
         = ProcessTranscript.segTokens items rest) ∧
    (ProcessTranscript.format_transcript ProcessTranscript.c9input).segments
      = [⟨"Customer", 0, 1, "Hi"⟩] := by
  constructor
  · intro items ref rest m hm hp
    have hstep : ProcessTranscript.stepToken [] m = [] := by
      cases halt : m.alternatives with
      | nil => simp [ProcessTranscript.stepToken, halt]
      | cons a as =>
        simp [ProcessTranscript.stepToken, halt, hp,
              ProcessTranscript.appendToLast]
    simp only [ProcessTranscript.segTokens, List.foldl_cons, hm, hstep]
  · rfl

/-- C9 witness: dropping the leading matched period of the c9input segment
leaves the collected tokens unchanged. -/
theorem C9_leading_punctuation_discarded_witness :
    ProcessTranscript.segTokens ProcessTranscript.c9input.items
        [⟨some ("0.0"), some ("0.1")⟩, ⟨some ("0.1"), some ("0.5")⟩]
      = ProcessTranscript.segTokens ProcessTranscript.c9input.items
          [⟨some ("0.1"), some ("0.5")⟩] :=
  C9_leading_punctuation_discarded.1 ProcessTranscript.c9input.items
    ⟨some ("0.0"), some ("0.1")⟩ [⟨some ("0.1"), some ("0.5")⟩]
    ⟨some ("0.0"), some ("0.1"), some ("punctuation"), [⟨some (".")⟩]⟩
    rfl rfl

/-- C5 counterexample: the claim says a segment with no matched items still
counts toward total_duration.  In c5input the only segment ends at 5 s and
matches nothing: it is dropped and total_duration_seconds is 0, not 5. -/
theorem C5_counterexample :
    (ProcessTranscript.format_transcript ProcessTranscript.c5input).segments
      = [] ∧
    (ProcessTranscript.format_transcript
        ProcessTranscript.c5input).metadata.total_duration_seconds = 0 ∧
    ¬ (ProcessTranscript.format_transcript
        ProcessTranscript.c5input).metadata.total_duration_seconds = 5 := by
  have h : (ProcessTranscript.format_transcript
      ProcessTranscript.c5input).metadata.total_duration_seconds = 0 := by
    simp [ProcessTranscript.format_transcript, ProcessTranscript.c5input,
          ProcessTranscript.formattedSegmentsOf, ProcessTranscript.processSegment,
          ProcessTranscript.segTokens, ProcessTranscript.findMatch,
          ProcessTranscript.c5unmatchedSeg, ProcessTranscript.truncRat]
  exact ⟨rfl, h, by rw [h]; decide⟩

/-- C5 amended: a diarization segment none of whose references match any
global item is dropped from the output and contributes to nothing at all —
the whole result, total_duration included, equals that of the input without
the segment (whenever other segments remain, so that the speaker-label
branch is unchanged). -/
theorem C5_unmatched_segment_contributes_nothing
    (res : ProcessTranscript.TranscribeResults)
    (pre post : List ProcessTranscript.DiarSegment)
    (seg : ProcessTranscript.DiarSegment)
    (hunmatched : ∀ ref ∈ seg.items,
       ProcessTranscript.findMatch res.items ref.start_time ref.end_time = none)
    (hne : pre ++ post ≠ []) :
    ProcessTranscript.format_transcript { res with segments := pre ++ seg :: post }
      = ProcessTranscript.format_transcript { res with segments := pre ++ post } := by
  have hnone : ProcessTranscript.processSegment res.items seg = none :=
    ProcessTranscript.processSegment_eq_none_of_unmatched res.items seg hunmatched
  have h1 : (pre ++ seg :: post) ≠ [] := by cases pre <;> simp
  have hfm : ProcessTranscript.formattedSegmentsOf
        { res with segments := pre ++ seg :: post }
      = ProcessTranscript.formattedSegmentsOf
          { res with segments := pre ++ post } := by
    rw [ProcessTranscript.formattedSegmentsOf_nonempty _ h1,
        ProcessTranscript.formattedSegmentsOf_nonempty _ hne]
    show (pre ++ seg :: post).filterMap (ProcessTranscript.processSegment res.items)
        = (pre ++ post).filterMap (ProcessTranscript.processSegment res.items)
    simp [List.filterMap_append, List.filterMap_cons, hnone]
  have hft : ∀ X : List ProcessTranscript.DiarSegment,
      ProcessTranscript.full_transcript_of { res with segments := X }
        = ProcessTranscript.full_transcript_of res := fun _ => rfl
  simp only [ProcessTranscript.format_transcript, hfm, hft]

/-- C5 witness: adding the unmatched segment to an input that also has a
matched segment changes nothing in the output. -/
theorem C5_unmatched_segment_contributes_nothing_witness :
    ProcessTranscript.format_transcript
        { ProcessTranscript.c5input with
          segments := [ProcessTranscript.c5matchedSeg,
                       ProcessTranscript.c5unmatchedSeg] }
      = ProcessTranscript.format_transcript
          { ProcessTranscript.c5input with
            segments := [ProcessTranscript.c5matchedSeg] } :=
  C5_unmatched_segment_contributes_nothing ProcessTranscript.c5input
    [ProcessTranscript.c5matchedSeg] [] ProcessTranscript.c5unmatchedSeg
    (by decide) (by decide)

namespace ChannelRenewal

/-- The only stop action in a renewal trace is the first one. -/
theorem trace_stop_index (old : ChannelRecord) (resp : WatchResponse)
    (i : ℕ) (a : RenewAction)
    (hi : (renew_channel_trace old resp)[i]? = some a)
    (ha : isStop a = true) : i = 0 := by
  rcases i with _ | _ | _ | _ | i
  · rfl
  · simp [renew_channel_trace] at hi
    subst hi; simp [isStop] at ha
  · simp [renew_channel_trace] at hi
    subst hi; simp [isStop] at ha
  · simp [renew_channel_trace] at hi
    subst hi; simp [isStop] at ha
  · simp [renew_channel_trace] at hi

/-- The only save of an active record in a renewal trace is the third
action. -/
theorem trace_save_index (old : ChannelRecord) (resp : WatchResponse)
    (i : ℕ) (a : RenewAction)
    (hi : (renew_channel_trace old resp)[i]? = some a)
    (ha : isSaveActive a = true) : i = 2 := by
  rcases i with _ | _ | _ | _ | i
  · simp [renew_channel_trace] at hi
    subst hi; simp [isSaveActive] at ha
  · simp [renew_channel_trace] at hi
    subst hi; simp [isSaveActive] at ha
  · rfl
  · simp [renew_channel_trace] at hi
    subst hi; simp [isSaveActive] at ha
  · simp [renew_channel_trace] at hi

/-- The only mark-renewed action in a renewal trace is the last one. -/
theorem trace_mark_index (old : ChannelRecord) (resp : WatchResponse)
    (i : ℕ) (a : RenewAction)
    (hi : (renew_channel_trace old resp)[i]? = some a)
    (ha : isMark a = true) : i = 3 := by
  rcases i with _ | _ | _ | _ | i
  · simp [renew_channel_trace] at hi
    subst hi; simp [isMark] at ha
  · simp [renew_channel_trace] at hi
    subst hi; simp [isMark] at ha
  · simp [renew_channel_trace] at hi
    subst hi; simp [isMark] at ha
  · rfl
  · simp [renew_channel_trace] at hi

end ChannelRenewal

/-- C1 counterexample: the claim requires the new channel record to be
persisted with status active strictly before the external stop call; in the
trace renew_channel actually produces, the stop call is the first action and
the save only the third, so the required ordering fails. -/
theorem C1_counterexample :
    ¬ ChannelRenewal.createBeforeTeardown
        (ChannelRenewal.renew_channel_trace ChannelRenewal.oldChannel0
          ChannelRenewal.watchResp0) := by
  intro h
  have h' : (2 : ℕ) < 0 := h ⟨2, by decide⟩ ⟨0, by decide⟩ (by decide)
    (by decide)
  omega

/-- C1 amended: renew_channel performs stop-then-create — the external stop
always precedes the save of the new record — so a crash between the two
leaves the folder without a live subscription; but the new record is
persisted with status active strictly before the old record is marked
renewed, and after every prefix of the execution (covering a crash at any
point) the channels table still holds at least one record with status
active. -/
theorem C1_renewal_stop_first_but_never_zero_active_records
    (old : ChannelRenewal.ChannelRecord) (resp : ChannelRenewal.WatchResponse)
    (db : List ChannelRenewal.ChannelRecord)
    (hmem : old ∈ db) (hact : old.status = "active")
    (hid : resp.channel_id ≠ old.channel_id) :
    (∀ (i j : ℕ) (a b : ChannelRenewal.RenewAction),
       (ChannelRenewal.renew_channel_trace old resp)[i]? = some a →
       (ChannelRenewal.renew_channel_trace old resp)[j]? = some b →
       ChannelRenewal.isStop a = true → ChannelRenewal.isSaveActive b = true →
       i < j) ∧
    (∀ (i j : ℕ) (a b : ChannelRenewal.RenewAction),
       (ChannelRenewal.renew_channel_trace old resp)[i]? = some a →
       (ChannelRenewal.renew_channel_trace old resp)[j]? = some b →
       ChannelRenewal.isSaveActive a = true → ChannelRenewal.isMark b = true →
       i < j) ∧
    (∀ k : ℕ, ∃ r ∈ ChannelRenewal.dbAfter db
        (ChannelRenewal.renew_channel_trace old resp) k,
       r.status = "active") := by
  refine ⟨?_, ?_, ?_⟩
  · intro i j a b hi hj ha hb
    have h1 := ChannelRenewal.trace_stop_index old resp i a hi ha
    have h2 := ChannelRenewal.trace_save_index old resp j b hj hb
    omega
  · intro i j a b hi hj ha hb
    have h1 := ChannelRenewal.trace_save_index old resp i a hi ha
    have h2 := ChannelRenewal.trace_mark_index old resp j b hj hb
    omega
  · intro k
    rcases k with _ | _ | _ | _ | k
    · exact ⟨old, hmem, hact⟩
    · exact ⟨old, hmem, hact⟩
    · exact ⟨old, hmem, hact⟩
    · exact ⟨ChannelRenewal.save_channel_info resp.channel_id resp.resource_id
        old.folder_id resp.expiration resp.page_token,
        by simp [ChannelRenewal.dbAfter, ChannelRenewal.renew_channel_trace,
          ChannelRenewal.applyAction], rfl⟩
    · have h4 : ChannelRenewal.dbAfter db
            (ChannelRenewal.renew_channel_trace old resp) (k + 4)
          = ChannelRenewal.dbAfter db
              (ChannelRenewal.renew_channel_trace old resp) 4 := by
        unfold ChannelRenewal.dbAfter
        rw [List.take_of_length_le (by
              simp [ChannelRenewal.renew_channel_trace]),
            List.take_of_length_le (by
              simp [ChannelRenewal.renew_channel_trace])]
      rw [h4]
      refine ⟨ChannelRenewal.save_channel_info resp.channel_id resp.resource_id
        old.folder_id resp.expiration resp.page_token, ?_, rfl⟩
      simp [ChannelRenewal.dbAfter, ChannelRenewal.renew_channel_trace,
        ChannelRenewal.applyAction, ChannelRenewal.save_channel_info, hid]

/-- C1 witness: with the concrete channel and watch response, after the stop
step alone (a crash before the create) the table still holds an active
record. -/
theorem C1_renewal_witness :
    ∃ r ∈ ChannelRenewal.dbAfter [ChannelRenewal.oldChannel0]
        (ChannelRenewal.renew_channel_trace ChannelRenewal.oldChannel0
          ChannelRenewal.watchResp0) 1,
      r.status = "active" :=
  (C1_renewal_stop_first_but_never_zero_active_records
    ChannelRenewal.oldChannel0 ChannelRenewal.watchResp0
    [ChannelRenewal.oldChannel0] (by decide) rfl (by decide)).2.2 1

namespace GenerateSummary

/-- Assigning a key makes it look up to the assigned value. -/
theorem lookup_assign_self (fs : List (String × JVal)) (k : String) (v : JVal) :
    lookupField (assignField fs k v) k = some v := by
  induction fs with
  | nil => simp [assignField, lookupField]
  | cons f fs ih =>
    cases h : f.1 == k with
    | true => simp [assignField, lookupField, List.find?, h]
    | false =>
      simp only [assignField, h, Bool.false_eq_true, if_false]
      simp only [lookupField, List.find?, h]
      simp only [lookupField] at ih
      exact ih

/-- Assigning one key leaves every other key's lookup unchanged. -/
theorem lookup_assign_ne (fs : List (String × JVal)) (k k2 : String) (v : JVal)
    (h : k2 ≠ k) :
    lookupField (assignField fs k v) k2 = lookupField fs k2 := by
  have hkk2 : (k == k2) = false := beq_eq_false_iff_ne.mpr (Ne.symm h)
  induction fs with
  | nil => simp [assignField, lookupField, List.find?, hkk2]
  | cons f fs ih =>
    cases hf : f.1 == k with
    | true =>
      have hfk : f.1 = k := by simpa using hf
      have hf2 : (f.1 == k2) = false := by rw [hfk]; exact hkk2
      simp [assignField, hf, lookupField, List.find?, hkk2, hf2]
    | false =>
      simp only [assignField, hf, Bool.false_eq_true, if_false]
      simp only [lookupField, List.find?] at ih ⊢
      cases hf2 : f.1 == k2 with
      | true => simp
      | false => exact ih

/-- Assignment preserves key presence. -/
theorem lookup_assign_isSome (fs : List (String × JVal)) (k k2 : String)
    (v : JVal) (h : (lookupField fs k2).isSome = true) :
    (lookupField (assignField fs k v) k2).isSome = true := by
  by_cases he : k2 = k
  · subst he
    rw [lookup_assign_self]
    rfl
  · rw [lookup_assign_ne fs k k2 v he]
    exact h

/-- The membership test of `field in summary` on a dict agrees with key
presence. -/
theorem any_eq_lookup_isSome (fs : List (String × JVal)) (k : String) :
    fs.any (fun f => f.1 == k) = (lookupField fs k).isSome := by
  induction fs with
  | nil => simp [lookupField]
  | cons f fs ih =>
    cases h : f.1 == k with
    | true => simp [lookupField, List.find?, h]
    | false =>
      simp only [List.any_cons, h, Bool.false_or]
      simp only [lookupField, List.find?, h] at ih ⊢
      exact ih

/-- ensureField on a dict never raises, establishes the key, and preserves
every present key. -/
theorem ensureField_obj (fs : List (String × JVal)) (k : String) :
    ∃ fs2, ensureField (.jobj fs) k = .ok (.jobj fs2) ∧
      (lookupField fs2 k).isSome = true ∧
      (∀ k2, (lookupField fs k2).isSome = true →
        (lookupField fs2 k2).isSome = true) := by
  by_cases h : fs.any (fun f => f.1 == k) = true
  · refine ⟨fs, ?_, ?_, fun _ hk => hk⟩
    · simp [ensureField, pyIn, h, Bind.bind, Except.bind, pure, Except.pure]
    · rw [← any_eq_lookup_isSome]
      exact h
  · refine ⟨assignField fs k (defaultFor k), ?_, ?_, ?_⟩
    · simp [ensureField, pyIn, h, Bind.bind, Except.bind, pure, Except.pure,
        pySetItem]
    · rw [lookup_assign_self]
      rfl
    · intro k2 hk2
      exact lookup_assign_isSome fs k k2 _ hk2

/-- Folding ensureField over a key list never raises, preserves present
keys, and establishes every key of the list. -/
theorem foldlM_ensureField (keys : List String) :
    ∀ fs : List (String × JVal),
      ∃ fs2, keys.foldlM ensureField (JVal.jobj fs) = .ok (.jobj fs2) ∧
        (∀ k2, (lookupField fs k2).isSome = true →
          (lookupField fs2 k2).isSome = true) ∧
        (∀ k ∈ keys, (lookupField fs2 k).isSome = true) := by
  induction keys with
  | nil =>
    intro fs
    exact ⟨fs, rfl, fun _ hk => hk, by simp⟩
  | cons k ks ih =>
    intro fs
    obtain ⟨fs1, h1, hk1, hpres1⟩ := ensureField_obj fs k
    obtain ⟨fs2, h2, hpres2, hall2⟩ := ih fs1
    refine ⟨fs2, ?_, fun k2 hk2 => hpres2 k2 (hpres1 k2 hk2), ?_⟩
    · rw [List.foldlM_cons, h1]
      exact h2
    · intro k2 hk2
      rcases List.mem_cons.mp hk2 with he | hin
      · subst he
        exact hpres2 k2 hk1
      · exact hall2 k2 hin

/-- ensureListField on a dict never raises, leaves every other key's value
unchanged, and preserves key presence. -/
theorem ensureListField_obj (fs : List (String × JVal)) (field : String) :
    ∃ fs2, ensureListField (.jobj fs) field = .ok (.jobj fs2) ∧
      (∀ k2, k2 ≠ field → lookupField fs2 k2 = lookupField fs k2) ∧
      (∀ k2, (lookupField fs k2).isSome = true →
        (lookupField fs2 k2).isSome = true) := by
  by_cases h1 : isList ((lookupField fs field).getD .jnull) = true
  · refine ⟨fs, ?_, fun _ _ => rfl, fun _ hk => hk⟩
    simp [ensureListField, pyGetMethod, h1, Bind.bind, Except.bind, pure,
      Except.pure]
  · by_cases h2 : jtruthy ((lookupField fs field).getD .jnull) = true
    · refine ⟨assignField fs field (.jarr [(lookupField fs field).getD .jnull]),
        ?_, ?_, ?_⟩
      · simp [ensureListField, pyGetMethod, h1, h2, Bind.bind, Except.bind,
          pure, Except.pure, pySetItem]
      · intro k2 hk2
        exact lookup_assign_ne fs field k2 _ hk2
      · intro k2 hk2
        exact lookup_assign_isSome fs field k2 _ hk2
    · refine ⟨assignField fs field (.jarr []), ?_, ?_, ?_⟩
      · simp [ensureListField, pyGetMethod, h1, h2, Bind.bind, Except.bind,
          pure, Except.pure, pySetItem]
      · intro k2 hk2
        exact lookup_assign_ne fs field k2 _ hk2
      · intro k2 hk2
        exact lookup_assign_isSome fs field k2 _ hk2

/-- Folding ensureListField over a key list never raises, leaves keys
outside the list unchanged, and preserves key presence. -/
theorem foldlM_ensureListField (keys : List String) :
    ∀ fs : List (String × JVal),
      ∃ fs2, keys.foldlM ensureListField (JVal.jobj fs) = .ok (.jobj fs2) ∧
        (∀ k2, k2 ∉ keys → lookupField fs2 k2 = lookupField fs k2) ∧
        (∀ k2, (lookupField fs k2).isSome = true →
          (lookupField fs2 k2).isSome = true) := by
  induction keys with
  | nil =>
    intro fs
    exact ⟨fs, rfl, fun _ _ => rfl, fun _ hk => hk⟩
  | cons k ks ih =>
    intro fs
    obtain ⟨fs1, h1, hne1, hpres1⟩ := ensureListField_obj fs k
    obtain ⟨fs2, h2, hne2, hpres2⟩ := ih fs1
    refine ⟨fs2, ?_, ?_, fun k2 hk2 => hpres2 k2 (hpres1 k2 hk2)⟩
    · rw [List.foldlM_cons, h1]
      exact h2
    · intro k2 hk2
      have hk2k : k2 ≠ k := fun he => hk2 (by simp [he])
      have hk2ks : k2 ∉ ks := fun hin => hk2 (by simp [hin])
      rw [hne2 k2 hk2ks, hne1 k2 hk2k]

end GenerateSummary

/-- C8 counterexample: the claim says parsing never raises.  The response
string of an empty JSON array is valid JSON, yet the required-fields loop
then performs item assignment on a list, which raises TypeError — the
function propagates an error instead of returning a summary.  The json.loads
stand-in agrees with the library on the single evaluated input. -/
theorem C8_counterexample :
    GenerateSummary.jsonLoadsArr (GenerateSummary.strip_fences ("[]"))
      = .ok (.jarr []) ∧
    GenerateSummary.parse_summary_response GenerateSummary.jsonLoadsArr
        ("2024-01-01") ("[]")
      = .error ("TypeError: item assignment unsupported") :=
  ⟨rfl, rfl⟩

/-- C8 amended: parse_summary_response never raises provided the response is
not valid JSON (it degrades to the fallback summary, which carries an
explicit parse_error field and sentiment Neutral) or parses to a JSON
object (every required field is then present, a missing one substituted
with its safe default, and the resulting sentiment is always one of the
three valid values); a valid-JSON non-object response instead raises. -/
theorem C8_parse_summary_degrades_or_validates
    (jsonLoads : String → Except String GenerateSummary.JVal)
    (today text : String) :
    (∀ e, jsonLoads (GenerateSummary.strip_fences text) = .error e →
       GenerateSummary.parse_summary_response jsonLoads today text
         = .ok (GenerateSummary.fallback_summary today e)) ∧
    (∀ e : String,
       GenerateSummary.pyGetMethod (GenerateSummary.fallback_summary today e)
           ("parse_error") = .ok (.jstr e) ∧
       GenerateSummary.pyGetMethod (GenerateSummary.fallback_summary today e)
           ("sentiment") = .ok (.jstr ("Neutral"))) ∧
    (∀ fs, jsonLoads (GenerateSummary.strip_fences text) = .ok (.jobj fs) →
       ∃ out, GenerateSummary.parse_summary_response jsonLoads today text
           = .ok (.jobj out) ∧
         (∀ k ∈ GenerateSummary.required_fields,
            (GenerateSummary.lookupField out k).isSome = true) ∧
         (∃ s, GenerateSummary.lookupField out ("sentiment")
             = some (.jstr s) ∧
           GenerateSummary.valid_sentiments.contains s = true)) := by
  refine ⟨?_, ?_, ?_⟩
  · intro e he
    simp [GenerateSummary.parse_summary_response, he]
  · intro e
    exact ⟨rfl, rfl⟩
  · intro fs hfs
    obtain ⟨fs1, h1, _, hall1⟩ :=
      GenerateSummary.foldlM_ensureField GenerateSummary.required_fields fs
    have hsent_mem : (GenerateSummary.lookupField fs1 ("sentiment")).isSome
        = true := hall1 "sentiment" (by simp [GenerateSummary.required_fields])
    obtain ⟨x, hx⟩ := Option.isSome_iff_exists.mp hsent_mem
    have hnotin : ("sentiment" : String)
        ∉ (["key_details", "action_items", "next_steps"] : List String) := by
      decide
    by_cases hv : GenerateSummary.sentimentValid
        ((GenerateSummary.lookupField fs1 ("sentiment")).getD .jnull) = true
    · obtain ⟨out, h3, hne3, hpres3⟩ :=
        GenerateSummary.foldlM_ensureListField
          ["key_details", "action_items", "next_steps"] fs1
      refine ⟨out, ?_, ?_, ?_⟩
      · simp only [GenerateSummary.parse_summary_response, hfs, h1,
          Bind.bind, Except.bind, GenerateSummary.pyGetMethod, hv, if_true,
          pure, Except.pure, h3]
      · intro k hk
        exact hpres3 k (hall1 k hk)
      · have hout : GenerateSummary.lookupField out ("sentiment")
            = GenerateSummary.lookupField fs1 ("sentiment") :=
          hne3 "sentiment" hnotin
        rw [hx] at hv
        simp only [Option.getD_some] at hv
        cases x with
        | jstr s =>
          refine ⟨s, by rw [hout, hx], ?_⟩
          simpa [GenerateSummary.sentimentValid] using hv
        | jnull => simp [GenerateSummary.sentimentValid] at hv
        | jbool b => simp [GenerateSummary.sentimentValid] at hv
        | jnum q => simp [GenerateSummary.sentimentValid] at hv
        | jarr xs => simp [GenerateSummary.sentimentValid] at hv
        | jobj fs0 => simp [GenerateSummary.sentimentValid] at hv
    · obtain ⟨out, h3, hne3, hpres3⟩ :=
        GenerateSummary.foldlM_ensureListField
          ["key_details", "action_items", "next_steps"]
          (GenerateSummary.assignField fs1 ("sentiment") (.jstr ("Neutral")))
      refine ⟨out, ?_, ?_, ?_⟩
      · simp only [GenerateSummary.parse_summary_response, hfs, h1,
          Bind.bind, Except.bind, GenerateSummary.pyGetMethod, hv, if_false,
          pure, Except.pure, GenerateSummary.pySetItem, h3]
        simp
      · intro k hk
        exact hpres3 k
          (GenerateSummary.lookup_assign_isSome fs1 _ k _ (hall1 k hk))
      · refine ⟨"Neutral", ?_, by decide⟩
        rw [hne3 "sentiment" hnotin]
        exact GenerateSummary.lookup_assign_self fs1 _ _

/-- C8 witness: an unparsable response returns the fallback summary, and a
response parsing to an empty JSON object returns a summary object without
raising. -/
theorem C8_parse_summary_witness :
    GenerateSummary.parse_summary_response GenerateSummary.jsonLoadsErr
        ("2024-01-01") ("oops")
      = .ok (GenerateSummary.fallback_summary ("2024-01-01")
          ("Expecting value")) ∧
    ∃ out, GenerateSummary.parse_summary_response GenerateSummary.jsonLoadsObj0
        ("2024-01-01") ("{}")
      = .ok (.jobj out) := by
  constructor
  · exact (C8_parse_summary_degrades_or_validates GenerateSummary.jsonLoadsErr
      ("2024-01-01") ("oops")).1 "Expecting value" rfl
  · obtain ⟨out, h1, -, -⟩ :=
      (C8_parse_summary_degrades_or_validates GenerateSummary.jsonLoadsObj0
        ("2024-01-01") ("{}")).2.2 [] rfl
    exact ⟨out, h1⟩
